import Mathlib

/-!
Verification of the DX cluster analyzer's acquisition / normalization /
deduplication pipeline (`dx_cluster_analyzer.py`).

Frequencies and wall-clock times are modelled as exact rationals (`ℚ`):
every arithmetic operation the analyzed code performs on them
(comparisons, multiplication by 1000, divisibility by 1000, absolute
difference, truncation to whole MHz) is exact on the values that occur,
so `ℚ` is a faithful carrier.  Python `int()` truncation is modelled with
`pyint` (t-division, which is exactly what `int()` does).
-/

set_option allowUnsafeReducibility true
attribute [local semireducible] Rat.add Rat.mul Rat.inv Rat.sub

/-- A row of the band configuration CSV (`band_config.csv`), as read by
`load_band_config`: the fields `Band`, `Mode`, `StartFreq`, `EndFreq`,
`Region`, with the two frequency bounds already converted to numbers
(the code applies `float(...)` to them at every use site). -/
structure BandConfig where
  band : String
  mode : String
  startFreq : ℚ
  endFreq : ℚ
  region : String
  deriving DecidableEq

/-- Python's `\w` character class on ASCII input: letters, digits, underscore. -/
def isWordChar (c : Char) : Bool :=
  c.isAlpha || c.isDigit || c == '_'

/-- One step of `\bKW\b` matching: does `kw` occur at the head of `s`
with a word boundary immediately after it? -/
def matchKeywordHere : List Char → List Char → Bool
  | [], [] => true
  | [], c :: _ => !isWordChar c
  | _ :: _, [] => false
  | k :: ks, c :: cs => k == c && matchKeywordHere ks cs

/-- Scan of `re.search(r'\bKW\b', s)` for a keyword made of word
characters: `prevWord` records whether the previous character was a word
character (start of string counts as a boundary). -/
def containsWordFrom (kw : List Char) (prevWord : Bool) : List Char → Bool
  | [] => false
  | c :: rest =>
    (!prevWord && matchKeywordHere kw (c :: rest)) ||
      containsWordFrom kw (isWordChar c) rest

/-- `re.search(r'\bKW\b', s) is not None` for a word-character keyword `kw`. -/
def containsWord (kw : String) (s : String) : Bool :=
  containsWordFrom kw.toList false s.toList

/-- `comment.upper()` (ASCII, as in the keyword searches of
`determine_mode_and_band`). -/
def upperStr (s : String) : String :=
  String.mk (s.toList.map Char.toUpper)

/-- The `cw_indicators` list of `determine_mode_and_band`. -/
def cw_indicators : List String := ["CW", "QRS", "MORSE"]

/-- The `ssb_indicators` list of `determine_mode_and_band`. -/
def ssb_indicators : List String := ["SSB", "LSB", "USB", "PHONE"]

/-- The `digital_indicators` list of `determine_mode_and_band`. -/
def digital_indicators : List String := ["FT8", "FT4", "PSK", "RTTY", "DIGITAL"]

/-- `any(re.search(p, comment_upper) for p in cw_indicators)`. -/
def cwMatch (comment : String) : Bool :=
  cw_indicators.any fun kw => containsWord kw (upperStr comment)

/-- `any(re.search(p, comment_upper) for p in ssb_indicators)`. -/
def ssbMatch (comment : String) : Bool :=
  ssb_indicators.any fun kw => containsWord kw (upperStr comment)

/-- `any(re.search(p, comment_upper) for p in digital_indicators)`. -/
def digitalMatch (comment : String) : Bool :=
  digital_indicators.any fun kw => containsWord kw (upperStr comment)

/-- The first pass of `determine_mode_and_band` (lines 676-683): the first
configuration row whose `[StartFreq, EndFreq]` interval contains the
frequency (the loop breaks at the first match). -/
def lookupBandConfig (configs : List BandConfig) (frequency : ℚ) : Option BandConfig :=
  configs.find? fun c => decide (c.startFreq ≤ frequency) && decide (frequency ≤ c.endFreq)

/-- The hardcoded fallback band table of `determine_mode_and_band`
(lines 704-724), used when `band` is still `"UNKNOWN"` after the
configuration lookup.  It covers the HF bands 160m through 10m only. -/
def fallbackBand (frequency : ℚ) : String :=
  if 1800 ≤ frequency ∧ frequency ≤ 2000 then "160m"
  else if 3500 ≤ frequency ∧ frequency ≤ 4000 then "80m"
  else if 5330 ≤ frequency ∧ frequency ≤ 5406 then "60m"
  else if 7000 ≤ frequency ∧ frequency ≤ 7300 then "40m"
  else if 10100 ≤ frequency ∧ frequency ≤ 10150 then "30m"
  else if 14000 ≤ frequency ∧ frequency ≤ 14350 then "20m"
  else if 18068 ≤ frequency ∧ frequency ≤ 18168 then "17m"
  else if 21000 ≤ frequency ∧ frequency ≤ 21450 then "15m"
  else if 24890 ≤ frequency ∧ frequency ≤ 24990 then "12m"
  else if 28000 ≤ frequency ∧ frequency ≤ 29700 then "10m"
  else "UNKNOWN"

/-- `determine_mode_and_band(frequency, comment)` (lines 669-726):
configuration lookup, then comment-keyword mode override
(CW checked first, then SSB, then DIGITAL), then fallback band table
when the band is still `"UNKNOWN"`.  Returns `(mode, band, region)`. -/
def determine_mode_and_band (configs : List BandConfig) (frequency : ℚ)
    (comment : String) : String × String × String :=
  let base := match lookupBandConfig configs frequency with
    | some c => (c.mode, c.band, c.region)
    | none => ("UNKNOWN", "UNKNOWN", "UNKNOWN")
  let mode :=
    if cwMatch comment then "CW"
    else if ssbMatch comment then "SSB"
    else if digitalMatch comment then "DIGITAL"
    else base.1
  let band := if base.2.1 = "UNKNOWN" then fallbackBand frequency else base.2.1
  (mode, band, base.2.2)

/-- `should_include_spot(frequency, mode)` (lines 728-740): modes other
than CW/SSB are rejected; otherwise some configuration row with the same
mode must contain the frequency. -/
def should_include_spot (configs : List BandConfig) (frequency : ℚ)
    (mode : String) : Bool :=
  if mode ≠ "CW" ∧ mode ≠ "SSB" then false
  else configs.any fun c =>
    c.mode == mode && decide (c.startFreq ≤ frequency) && decide (frequency ≤ c.endFreq)

example : cwMatch "CQ CW test" = true := by decide
example : cwMatch "CQ SSB" = false := by decide
example : ssbMatch "lsb up 5" = true := by decide
example : ssbMatch "CWSSB" = false := by decide
example : digitalMatch "FT8 -10" = true := by decide
example :
    determine_mode_and_band [⟨"20m", "SSB", 14150, 14350, "EU"⟩] 14205 "CQ" =
      ("SSB", "20m", "EU") := by decide
example :
    determine_mode_and_band [] 14205 "CQ CW" = ("CW", "20m", "UNKNOWN") := by decide
example : should_include_spot [⟨"20m", "SSB", 14150, 14350, "EU"⟩] 14205 "SSB" = true := by
  decide
example : should_include_spot [⟨"20m", "SSB", 14150, 14350, "EU"⟩] 14205 "CW" = false := by
  decide
example : should_include_spot [⟨"20m", "SSB", 14150, 14350, "EU"⟩] 14205 "DIGITAL" = false := by
  decide

/-- First-match behaviour of `List.find?` over a decomposed list: if no
element of the prefix satisfies the predicate and `r` does, `find?`
returns `r`, whatever the suffix contains. -/
theorem find?_first {α : Type} (p : α → Bool) (pre post : List α) (r : α)
    (hpre : ∀ c ∈ pre, p c = false) (hr : p r = true) :
    (pre ++ r :: post).find? p = some r := by
  induction pre with
  | nil => simp [List.find?_cons, hr]
  | cons c cs ih =>
    have hc := hpre c (by simp)
    simp [List.find?_cons, hc, ih (fun x hx => hpre x (by simp [hx]))]

/-- C2 counterexample: the comment `"LSB CW"` contains the whole-word
SSB-indicator `LSB`, yet `determine_mode_and_band` classifies the mode as
`"CW"`, not `"SSB"` — the CW keyword set is checked first and wins, so a
comment keyword does not always dictate the returned mode category. -/
theorem C2_counterexample :
    ssbMatch "LSB CW" = true ∧
    (determine_mode_and_band [] 0 "LSB CW").1 = "CW" ∧
    (determine_mode_and_band [] 0 "LSB CW").1 ≠ "SSB" := by decide

/-- C2 (amended): keyword categories are checked in the priority order
CW, then SSB, then DIGITAL; the highest-priority category with a
whole-word match in the comment gives the returned mode, overriding the
frequency-derived mode; if no keyword matches, the frequency-derived
mode (that of the first matching band rule, else `"UNKNOWN"`) stands. -/
theorem C2_amended (configs : List BandConfig) (f : ℚ) (comment : String) :
    (cwMatch comment = true → (determine_mode_and_band configs f comment).1 = "CW") ∧
    (cwMatch comment = false → ssbMatch comment = true →
      (determine_mode_and_band configs f comment).1 = "SSB") ∧
    (cwMatch comment = false → ssbMatch comment = false → digitalMatch comment = true →
      (determine_mode_and_band configs f comment).1 = "DIGITAL") ∧
    (cwMatch comment = false → ssbMatch comment = false → digitalMatch comment = false →
      (determine_mode_and_band configs f comment).1 =
        (match lookupBandConfig configs f with
          | some c => c.mode
          | none => "UNKNOWN")) := by
  refine ⟨?_, ?_, ?_, ?_⟩ <;> intros <;>
    cases hl : lookupBandConfig configs f <;>
      simp [determine_mode_and_band, hl, *]

/-- C2 witness: on the comment `"QSX CW"`, whose only keyword is the CW
indicator, the classifier returns mode `"CW"`. -/
theorem C2_amended_witness :
    cwMatch "QSX CW" = true ∧ (determine_mode_and_band [] 7030 "QSX CW").1 = "CW" :=
  ⟨by decide, (C2_amended [] 7030 "QSX CW").1 (by decide)⟩

/-- C3 counterexample: a band rule whose `Band` field is the literal
string `"UNKNOWN"` matches frequency 1900, yet the returned band is the
fallback `"160m"`, not the rule's `"UNKNOWN"` — the fallback table fires
whenever the band is `"UNKNOWN"`, not only when no rule matched, so
classify does not always return the first matching rule's triple. -/
theorem C3_counterexample :
    lookupBandConfig [⟨"UNKNOWN", "CW", 1800, 2000, "EU"⟩] 1900 =
        some ⟨"UNKNOWN", "CW", 1800, 2000, "EU"⟩ ∧
    cwMatch "" = false ∧ ssbMatch "" = false ∧ digitalMatch "" = false ∧
    determine_mode_and_band [⟨"UNKNOWN", "CW", 1800, 2000, "EU"⟩] 1900 "" =
      ("CW", "160m", "EU") ∧
    ("160m" : String) ≠ "UNKNOWN" := by decide

/-- C3 (amended): with no overriding keyword in the comment, classify
returns the mode and region of the first rule in table order whose range
contains the frequency — even when later rules' ranges also contain it —
and that rule's band, except that a rule band equal to the literal
string `"UNKNOWN"` is replaced by the hardcoded fallback table. -/
theorem C3_amended (pre post : List BandConfig) (r : BandConfig) (f : ℚ) (comment : String)
    (hpre : ∀ c ∈ pre, ¬(c.startFreq ≤ f ∧ f ≤ c.endFreq))
    (hr : r.startFreq ≤ f ∧ f ≤ r.endFreq)
    (hcw : cwMatch comment = false) (hssb : ssbMatch comment = false)
    (hdig : digitalMatch comment = false) :
    determine_mode_and_band (pre ++ r :: post) f comment =
      (r.mode, if r.band = "UNKNOWN" then fallbackBand f else r.band, r.region) := by
  have hlook : lookupBandConfig (pre ++ r :: post) f = some r := by
    unfold lookupBandConfig
    refine find?_first _ pre post r (fun c hc => ?_) (by simp [hr.1, hr.2])
    show (decide (c.startFreq ≤ f) && decide (f ≤ c.endFreq)) = false
    by_cases h1 : c.startFreq ≤ f
    · by_cases h2 : f ≤ c.endFreq
      · exact absurd ⟨h1, h2⟩ (hpre c hc)
      · simp [h2]
    · simp [h1]
  simp [determine_mode_and_band, hlook, hcw, hssb, hdig]

/-- C3 witness: a table with a non-matching rule before an SSB 20m rule
and an overlapping CW rule after it classifies 14205 kHz by the first
matching rule. -/
theorem C3_amended_witness :
    determine_mode_and_band
        [⟨"30m", "CW", 10100, 10150, "EU"⟩, ⟨"20m", "SSB", 14150, 14350, "EU"⟩,
          ⟨"20m", "CW", 14000, 14350, "US"⟩] 14205 "CQ DX" =
      ("SSB", "20m", "EU") := by
  have h := C3_amended [⟨"30m", "CW", 10100, 10150, "EU"⟩]
      [⟨"20m", "CW", 14000, 14350, "US"⟩] ⟨"20m", "SSB", 14150, 14350, "EU"⟩ 14205 "CQ DX"
      (by decide) (by decide) (by decide) (by decide) (by decide)
  simpa using h

/-- C4: `should_include_spot` returns true iff the mode is CW or SSB and
some band-configuration entry of that same mode contains the frequency;
in particular it is false for DIGITAL and UNKNOWN modes on all inputs,
and false whenever no table entry contains the frequency at all (spots
banded only through the hardcoded fallback). -/
theorem C4_should_include_iff (configs : List BandConfig) (f : ℚ) (mode : String) :
    (should_include_spot configs f mode = true ↔
      ((mode = "CW" ∨ mode = "SSB") ∧
        ∃ c ∈ configs, c.mode = mode ∧ c.startFreq ≤ f ∧ f ≤ c.endFreq)) ∧
    should_include_spot configs f "DIGITAL" = false ∧
    should_include_spot configs f "UNKNOWN" = false ∧
    ((∀ c ∈ configs, ¬(c.startFreq ≤ f ∧ f ≤ c.endFreq)) →
      should_include_spot configs f mode = false) := by
  have key : ∀ m : String, should_include_spot configs f m = true ↔
      ((m = "CW" ∨ m = "SSB") ∧
        ∃ c ∈ configs, c.mode = m ∧ c.startFreq ≤ f ∧ f ≤ c.endFreq) := by
    intro m
    rw [should_include_spot]
    split
    case isTrue h =>
      simp only [Bool.false_eq_true, false_iff]
      rintro ⟨(rfl | rfl), -⟩
      · exact h.1 rfl
      · exact h.2 rfl
    case isFalse h =>
      rw [List.any_eq_true]
      constructor
      · rintro ⟨c, hc, hcond⟩
        simp only [Bool.and_eq_true, beq_iff_eq, decide_eq_true_eq] at hcond
        refine ⟨?_, c, hc, hcond.1.1, hcond.1.2, hcond.2⟩
        by_cases h1 : m = "CW"
        · exact Or.inl h1
        · right
          by_contra h2
          exact h ⟨h1, h2⟩
      · rintro ⟨hm, c, hc, h1, h2, h3⟩
        exact ⟨c, hc, by simp [h1, h2, h3]⟩
  refine ⟨key mode, ?_, ?_, ?_⟩
  · rw [Bool.eq_false_iff]
    intro h
    rcases ((key "DIGITAL").mp h).1 with h' | h' <;> simp at h'
  · rw [Bool.eq_false_iff]
    intro h
    rcases ((key "UNKNOWN").mp h).1 with h' | h' <;> simp at h'
  · intro hno
    rw [Bool.eq_false_iff]
    intro h
    rcases (key mode).mp h with ⟨-, c, hc, -, h1, h2⟩
    exact hno c hc ⟨h1, h2⟩

/-- C4 witness: with a table containing only a 20m SSB rule, a spot at
7030 kHz is excluded even in SSB mode (no entry contains the frequency). -/
theorem C4_witness :
    should_include_spot [⟨"20m", "SSB", 14150, 14350, "EU"⟩] 7030 "SSB" = false :=
  (C4_should_include_iff [⟨"20m", "SSB", 14150, 14350, "EU"⟩] 7030 "SSB").2.2.2 (by decide)

/-- C6 counterexample: at 146000 kHz (inside 144000-148000) with no
matching table entry, the fallback of `determine_mode_and_band` leaves
the band `"UNKNOWN"`: its hardcoded table stops at 10m and has no
`"2m"` entry (the 2m mapping exists only in the generic HTML parser's
separate band table). -/
theorem C6_counterexample :
    (determine_mode_and_band [] 146000 "").2.1 = "UNKNOWN" ∧
    (determine_mode_and_band [] 146000 "").2.1 ≠ "2m" := by decide

/-- C6 (amended): for every frequency matched by no band-configuration
entry, classify populates the band from the hardcoded fallback table of
standard shortwave band edges (160m through 10m: 1800-2000, 3500-4000,
5330-5406, 7000-7300, 10100-10150, 14000-14350, 18068-18168,
21000-21450, 24890-24990, 28000-29700), with no VHF entries — in
particular 50-54 MHz and 144-148 MHz stay `"UNKNOWN"` — and the region
remains `"UNKNOWN"` in this fallback path. -/
theorem C6_amended (configs : List BandConfig) (f : ℚ) (comment : String)
    (hno : ∀ c ∈ configs, ¬(c.startFreq ≤ f ∧ f ≤ c.endFreq)) :
    ((determine_mode_and_band configs f comment).2.1 = fallbackBand f ∧
      (determine_mode_and_band configs f comment).2.2 = "UNKNOWN") ∧
    fallbackBand 1900 = "160m" ∧ fallbackBand 3600 = "80m" ∧
    fallbackBand 7100 = "40m" ∧ fallbackBand 14200 = "20m" ∧
    fallbackBand 28500 = "10m" ∧ fallbackBand 50100 = "UNKNOWN" ∧
    fallbackBand 146000 = "UNKNOWN" := by
  have hlook : lookupBandConfig configs f = none := by
    unfold lookupBandConfig
    rw [List.find?_eq_none]
    intro c hc
    rw [Bool.not_eq_true, Bool.eq_false_iff]
    simp only [Bool.and_eq_true, decide_eq_true_eq, ne_eq]
    simpa using hno c hc
  refine ⟨⟨?_, ?_⟩, by decide, by decide, by decide, by decide, by decide, by decide, by decide⟩ <;>
    simp [determine_mode_and_band, hlook]

/-- C6 witness: with an empty table, 146000 kHz gets the fallback band
(`"UNKNOWN"`) and the region stays `"UNKNOWN"`. -/
theorem C6_amended_witness :
    (determine_mode_and_band [] 146000 "").2.1 = fallbackBand 146000 ∧
    (determine_mode_and_band [] 146000 "").2.2 = "UNKNOWN" :=
  (C6_amended [] 146000 "" (by simp)).1

/-- Floor of a rational as an integer (`fdiv` of numerator by the
positive denominator rounds toward negative infinity). -/
def ratFloor (q : ℚ) : ℤ := Int.fdiv q.num (q.den : ℤ)

/-- Python's `int(...)` on an exact rational: truncation toward zero
(`Int.tdiv` is t-division). -/
def pyint (q : ℚ) : ℤ := Int.tdiv q.num (q.den : ℤ)

/-- Python's `%` for a positive modulus `m` on exact values:
`x - m * floor(x / m)`. -/
def pymod (x m : ℚ) : ℚ := x - m * (ratFloor (x / m) : ℚ)

/-- `is_rounded = freq % 1000 == 0 and freq >= 1000`: the frequency is a
"suspiciously rounded" exact multiple of 1000 kHz. -/
def isRoundedFreq (f : ℚ) : Bool :=
  decide (pymod f 1000 = 0) && decide ((1000 : ℚ) ≤ f)

/-- Value of a decimal literal with integer digits `d1` and fractional
digits `d2` (what Python's `float(...)` returns on the matched text). -/
def digitsToNat (ds : List Char) : ℕ :=
  ds.foldl (fun acc c => acc * 10 + (c.toNat - '0'.toNat)) 0

/-- Numeric value of `d1 ++ "." ++ d2`. -/
def decimalValue (d1 d2 : List Char) : ℚ :=
  (digitsToNat d1 : ℚ) + (digitsToNat d2 : ℚ) / (10 : ℚ) ^ d2.length

/-- One attempt of the regex `\d+\.\d+` anchored at the head of `s`:
a maximal nonempty digit run, a dot, a maximal nonempty digit run.
Returns the value and the remaining text after the match. -/
def matchDecimalAt (s : List Char) : Option (ℚ × List Char) :=
  if s.takeWhile Char.isDigit = [] then none
  else
    match s.dropWhile Char.isDigit with
    | '.' :: r2 =>
      if r2.takeWhile Char.isDigit = [] then none
      else some (decimalValue (s.takeWhile Char.isDigit) (r2.takeWhile Char.isDigit),
            r2.dropWhile Char.isDigit)
    | _ => none

theorem matchDecimalAt_length {s : List Char} {q : ℚ} {rem : List Char}
    (h : matchDecimalAt s = some (q, rem)) : rem.length < s.length := by
  unfold matchDecimalAt at h
  split at h
  · exact absurd h (by simp)
  case isFalse hne =>
    split at h
    case h_1 r2 hm =>
      split at h
      · exact absurd h (by simp)
      · have hrem : rem = r2.dropWhile Char.isDigit := by
          injection h with h'
          exact (congrArg Prod.snd h').symm
        have h1 : (s.takeWhile Char.isDigit).length + (s.dropWhile Char.isDigit).length
            = s.length := by
          rw [← List.length_append, List.takeWhile_append_dropWhile]
        have h2 : (r2.dropWhile Char.isDigit).length ≤ r2.length :=
          (List.dropWhile_sublist _).length_le
        have h3 : 0 < (s.takeWhile Char.isDigit).length := List.length_pos.mpr hne
        have h4 : (s.dropWhile Char.isDigit).length = r2.length + 1 := by
          rw [hm]; rfl
        rw [hrem]
        omega
    · exact absurd h (by simp)

/-- `re.findall(r'(\d+\.\d+)', text)` as values: the successive
non-overlapping leftmost maximal decimal literals in `text`. -/
def findallDecimalsAux : ℕ → List Char → List ℚ
  | 0, _ => []
  | _, [] => []
  | fuel + 1, c :: rest =>
    match matchDecimalAt (c :: rest) with
    | some (q, rem) => q :: findallDecimalsAux fuel rem
    | none => findallDecimalsAux fuel rest

def findallDecimals (s : List Char) : List ℚ :=
  findallDecimalsAux s.length s

/-- The body of the rounded-frequency correction loop (web path lines
1137-1155, table path lines 203-221): the first decimal that is either
an MHz value (between 1 and 30) landing in the same whole-MHz slot as
the rounded frequency, or a kHz value within 1000 of it that is not
itself a multiple of 1000, replaces the frequency; otherwise the
original frequency is kept. -/
def applyCorrection (freq : ℚ) : List ℚ → ℚ
  | [] => freq
  | d :: rest =>
    if 1 ≤ d ∧ d ≤ 30 then
      if pyint (d * 1000 / 1000) = pyint (freq / 1000) then d * 1000
      else applyCorrection freq rest
    else if |d - freq| < 1000 ∧ pymod d 1000 ≠ 0 then d
    else applyCorrection freq rest

/-- The rounded-frequency correction applied to one extracted frequency
and its surrounding row/comment text (guarded by `is_rounded`). -/
def correctRoundedFrequency (freq : ℚ) (text : String) : ℚ :=
  if isRoundedFreq freq then applyCorrection freq (findallDecimals text.toList) else freq

/-- The web ingestion path's use of the correction (line 1134:
`if is_rounded and comment:`): an empty comment disables the search. -/
def webCorrectedFrequency (freq : ℚ) (comment : String) : ℚ :=
  if comment ≠ "" then correctRoundedFrequency freq comment else freq

/-- The acceptance condition of the correction loop on one decimal. -/
def qualifiesCorrection (freq d : ℚ) : Bool :=
  (decide (1 ≤ d ∧ d ≤ 30) &&
      decide (pyint (d * 1000 / 1000) = pyint (freq / 1000))) ||
    (!decide (1 ≤ d ∧ d ≤ 30) && decide (|d - freq| < 1000 ∧ pymod d 1000 ≠ 0))

theorem applyCorrection_eq_find (freq : ℚ) (ds : List ℚ) :
    applyCorrection freq ds =
      match ds.find? (qualifiesCorrection freq) with
      | some d => if 1 ≤ d ∧ d ≤ 30 then d * 1000 else d
      | none => freq := by
  induction ds with
  | nil => rfl
  | cons d rest ih =>
    rw [applyCorrection, List.find?_cons]
    by_cases h1 : 1 ≤ d ∧ d ≤ 30
    · by_cases h2 : pyint (d * 1000 / 1000) = pyint (freq / 1000)
      · have hq : qualifiesCorrection freq d = true := by
          unfold qualifiesCorrection
          rw [decide_eq_true h1, decide_eq_true h2]
          rfl
        rw [if_pos h1, if_pos h2, hq]
        exact (if_pos h1).symm
      · have hq : qualifiesCorrection freq d = false := by
          unfold qualifiesCorrection
          rw [decide_eq_true h1, decide_eq_false h2]
          rfl
        rw [if_pos h1, if_neg h2, hq]
        exact ih
    · by_cases h3 : |d - freq| < 1000 ∧ pymod d 1000 ≠ 0
      · have hq : qualifiesCorrection freq d = true := by
          unfold qualifiesCorrection
          rw [decide_eq_false h1, decide_eq_true h3]
          rfl
        rw [if_neg h1, if_pos h3, hq]
        exact (if_neg h1).symm
      · have hq : qualifiesCorrection freq d = false := by
          unfold qualifiesCorrection
          rw [decide_eq_false h1, decide_eq_false h3]
          rfl
        rw [if_neg h1, if_neg h3, hq]
        exact ih

/-- C5: the rounded-frequency correction. A frequency that is an exact
multiple of 1000 kHz is replaced by the first decimal literal in the
row/comment text that qualifies (an MHz value 1-30 in the same whole-MHz
slot, or a kHz value within 1000 kHz that is not itself a multiple of
1000); the frequency is never changed when it is not a rounded multiple
of 1000 or when no qualifying decimal is present; in particular 14000
with accompanying text containing "14.195" resolves to 14195, not 14000. -/
theorem C5_rounded_frequency_correction :
    correctRoundedFrequency 14000 "DX 14.195 QSX" = 14195 ∧
    (∀ f : ℚ, ∀ text : String, isRoundedFreq f = false →
      correctRoundedFrequency f text = f) ∧
    (∀ f : ℚ, ∀ text : String,
      (findallDecimals text.toList).find? (qualifiesCorrection f) = none →
      correctRoundedFrequency f text = f) ∧
    (∀ f d : ℚ, ∀ text : String, isRoundedFreq f = true →
      (findallDecimals text.toList).find? (qualifiesCorrection f) = some d →
      correctRoundedFrequency f text = if 1 ≤ d ∧ d ≤ 30 then d * 1000 else d) := by
  refine ⟨by decide, ?_, ?_, ?_⟩
  · intro f text h
    unfold correctRoundedFrequency
    rw [h]
    rfl
  · intro f text h
    unfold correctRoundedFrequency
    cases hr : isRoundedFreq f
    · rfl
    · rw [if_pos rfl, applyCorrection_eq_find, h]
  · intro f d text hr h
    unfold correctRoundedFrequency
    rw [hr, if_pos rfl, applyCorrection_eq_find, h]

/-- C5 witness: a non-rounded frequency is left alone even with a decimal
in the text, and a rounded one is left alone when the text has no
qualifying decimal. -/
theorem C5_witness :
    correctRoundedFrequency 14500 "QSX 14.520" = 14500 ∧
    correctRoundedFrequency 14000 "CQ DX" = 14000 :=
  ⟨C5_rounded_frequency_correction.2.1 14500 "QSX 14.520" (by decide),
    C5_rounded_frequency_correction.2.2.1 14000 "CQ DX" (by decide)⟩

/-- A spot dictionary produced by the HTML extractors and consumed by
`process_web_data` (fields `frequency`, `dx_call`, `comment`, `spotter`,
with the `.get` defaults already applied). -/
structure WebSpot where
  frequency : ℚ
  dx_call : String
  comment : String
  spotter : String
  deriving DecidableEq

/-- A row appended to `raw_data_buffer`:
`[timestamp, frequency, dx_call, spotter, mode, band, region]`. -/
structure RawRow where
  timestamp : ℚ
  frequency : ℚ
  dx_call : String
  spotter : String
  mode : String
  band : String
  region : String
  deriving DecidableEq

/-- The mutable pipeline state of `DXClusterAnalyzer`: the dedup cache
`spot_cache` (key `(dx_call, frequency)` mapped to last-seen time, the
code's `f"{dx_call}_{frequency}"` string key modelled as the pair),
`last_cache_cleanup`, the aggregate counters `frequency_counts`,
`total_spots`, and `raw_data_buffer`. -/
structure AnalyzerState where
  spot_cache : String × ℚ → Option ℚ
  last_cache_cleanup : ℚ
  frequency_counts : ℚ → String → ℕ
  total_spots : ℕ
  raw_data_buffer : List RawRow

/-- The state right after `DXClusterAnalyzer.__init__` at time `t0`
(empty cache, `last_cache_cleanup = time.time()`, zero counters). -/
def initialAnalyzerState (t0 : ℚ) : AnalyzerState :=
  ⟨fun _ => none, t0, fun _ _ => 0, 0, []⟩

/-- `clean_spot_cache` (lines 1082-1100): a no-op within 300 s of the
previous cleanup; otherwise entries older than `cache_expiry` (3600 s)
are dropped and the cleanup clock is reset. -/
def clean_spot_cache (t : ℚ) (st : AnalyzerState) : AnalyzerState :=
  if t - st.last_cache_cleanup < 300 then st
  else
    { st with
      spot_cache := fun k =>
        match st.spot_cache k with
        | some ts => if t - ts > 3600 then none else some ts
        | none => none,
      last_cache_cleanup := t }

/-- `self.frequency_counts[frequency][mode] += 1` on the counter table. -/
def bumpCount (counts : ℚ → String → ℕ) (f : ℚ) (m : String) : ℚ → String → ℕ :=
  fun q mm => if q = f ∧ mm = m then counts q mm + 1 else counts q mm

/-- `self.spot_cache[cache_key] = current_time`. -/
def cacheInsert (cache : String × ℚ → Option ℚ) (k : String × ℚ) (t : ℚ) :
    String × ℚ → Option ℚ :=
  fun k2 => if k2 = k then some t else cache k2

/-- The per-spot body of `process_web_data` (lines 1113-1191): guard
`frequency > 0 and dx_call`, rounded-frequency correction, dedup-cache
check with the 600 s window, cache insert/refresh, classification,
inclusion filter, buffer append and counter update. -/
def process_web_spot (configs : List BandConfig) (t : ℚ) (st : AnalyzerState)
    (spot : WebSpot) : AnalyzerState :=
  if 0 < spot.frequency ∧ spot.dx_call ≠ "" then
    let frequency := webCorrectedFrequency spot.frequency spot.comment
    let key := (spot.dx_call, frequency)
    let skip := match st.spot_cache key with
      | some ts => decide (t - ts < 600)
      | none => false
    if skip then st
    else
      let st1 := { st with spot_cache := cacheInsert st.spot_cache key t }
      let mbr := determine_mode_and_band configs frequency spot.comment
      if should_include_spot configs frequency mbr.1 then
        { st1 with
          raw_data_buffer := st1.raw_data_buffer ++
            [⟨t, frequency, spot.dx_call, spot.spotter, mbr.1, mbr.2.1, mbr.2.2⟩],
          frequency_counts := bumpCount st1.frequency_counts frequency mbr.1,
          total_spots := st1.total_spots + 1 }
      else st1
  else st

/-- `process_web_data(spots)` (lines 1102-1196) at wall-clock time `t`:
nothing on an empty batch, else a cache cleanup followed by the per-spot
processing in batch order. -/
def process_web_data (configs : List BandConfig) (t : ℚ) (spots : List WebSpot)
    (st : AnalyzerState) : AnalyzerState :=
  if spots = [] then st
  else spots.foldl (process_web_spot configs t) (clean_spot_cache t st)

theorem clean_total (t : ℚ) (st : AnalyzerState) :
    (clean_spot_cache t st).total_spots = st.total_spots := by
  unfold clean_spot_cache
  split <;> rfl

theorem clean_counts (t : ℚ) (st : AnalyzerState) :
    (clean_spot_cache t st).frequency_counts = st.frequency_counts := by
  unfold clean_spot_cache
  split <;> rfl

theorem clean_buffer (t : ℚ) (st : AnalyzerState) :
    (clean_spot_cache t st).raw_data_buffer = st.raw_data_buffer := by
  unfold clean_spot_cache
  split <;> rfl

theorem clean_cache_none (t : ℚ) (st : AnalyzerState) (k : String × ℚ)
    (h : st.spot_cache k = none) : (clean_spot_cache t st).spot_cache k = none := by
  unfold clean_spot_cache
  split
  · exact h
  · show (match st.spot_cache k with
      | some ts => if t - ts > 3600 then none else some ts
      | none => none) = none
    rw [h]

theorem clean_cache_keep (t : ℚ) (st : AnalyzerState) (k : String × ℚ) (ts : ℚ)
    (h : st.spot_cache k = some ts) (hts : ¬t - ts > 3600) :
    (clean_spot_cache t st).spot_cache k = some ts := by
  unfold clean_spot_cache
  split
  · exact h
  · show (match st.spot_cache k with
      | some ts => if t - ts > 3600 then none else some ts
      | none => none) = some ts
    rw [h]
    show (if t - ts > 3600 then (none : Option ℚ) else some ts) = some ts
    exact if_neg hts

theorem clean_cache_cases (t : ℚ) (st : AnalyzerState) (k : String × ℚ) (ts : ℚ)
    (h : st.spot_cache k = some ts) :
    (clean_spot_cache t st).spot_cache k = some ts ∨
      (clean_spot_cache t st).spot_cache k = none := by
  by_cases h2 : t - ts > 3600
  · unfold clean_spot_cache
    split
    · exact Or.inl h
    · right
      show (match st.spot_cache k with
        | some ts => if t - ts > 3600 then none else some ts
        | none => none) = none
      rw [h]
      show (if t - ts > 3600 then (none : Option ℚ) else some ts) = none
      exact if_pos h2
  · exact Or.inl (clean_cache_keep t st k ts h h2)

theorem bumpCount_self (counts : ℚ → String → ℕ) (f : ℚ) (m : String) :
    bumpCount counts f m f m = counts f m + 1 := by
  simp [bumpCount]

/-- A spot whose dedup key is cached less than 600 s ago is skipped:
the state is unchanged. -/
theorem process_web_spot_skip (configs : List BandConfig) (t : ℚ) (st : AnalyzerState)
    (s : WebSpot) (ts : ℚ) (hf : 0 < s.frequency) (hdx : s.dx_call ≠ "")
    (hcache : st.spot_cache (s.dx_call, webCorrectedFrequency s.frequency s.comment) = some ts)
    (hts : t - ts < 600) :
    process_web_spot configs t st s = st := by
  unfold process_web_spot
  rw [if_pos ⟨hf, hdx⟩]
  simp [hcache, hts]

/-- A spot whose dedup key is absent from the cache (or present but at
least 600 s old) and which passes the inclusion filter is admitted: the
cache is refreshed and the counters, total and buffer all advance. -/
theorem process_web_spot_admit (configs : List BandConfig) (t : ℚ) (st : AnalyzerState)
    (s : WebSpot) (hf : 0 < s.frequency) (hdx : s.dx_call ≠ "")
    (hcache :
      st.spot_cache (s.dx_call, webCorrectedFrequency s.frequency s.comment) = none ∨
        ∃ ts, st.spot_cache (s.dx_call, webCorrectedFrequency s.frequency s.comment) = some ts ∧
          ¬t - ts < 600)
    (hinc : should_include_spot configs (webCorrectedFrequency s.frequency s.comment)
      (determine_mode_and_band configs (webCorrectedFrequency s.frequency s.comment)
        s.comment).1 = true) :
    process_web_spot configs t st s =
      { st with
        spot_cache := cacheInsert st.spot_cache
          (s.dx_call, webCorrectedFrequency s.frequency s.comment) t,
        raw_data_buffer := st.raw_data_buffer ++
          [⟨t, webCorrectedFrequency s.frequency s.comment, s.dx_call, s.spotter,
            (determine_mode_and_band configs (webCorrectedFrequency s.frequency s.comment)
              s.comment).1,
            (determine_mode_and_band configs (webCorrectedFrequency s.frequency s.comment)
              s.comment).2.1,
            (determine_mode_and_band configs (webCorrectedFrequency s.frequency s.comment)
              s.comment).2.2⟩],
        frequency_counts := bumpCount st.frequency_counts
          (webCorrectedFrequency s.frequency s.comment)
          (determine_mode_and_band configs (webCorrectedFrequency s.frequency s.comment)
            s.comment).1,
        total_spots := st.total_spots + 1 } := by
  unfold process_web_spot
  rw [if_pos ⟨hf, hdx⟩]
  rcases hcache with hnone | ⟨ts, hsome, hts⟩
  · simp [hnone, hinc]
  · simp [hsome, hts, hinc]

/-- C1 counterexample: two web spots with identical `(dx_call, frequency)`
keys `("JA1ABC", 14000)`, both passing the inclusion filter, processed
10 s apart — well inside the 600 s dedup window — are BOTH admitted to
`frequency_counts`/`total_spots` (2, not exactly 1): the dedup cache key
is built from the post-correction frequency, and the first spot's
comment "CW 14.050" rewrites its key frequency to 14050 while the
second's stays 14000. -/
theorem C1_counterexample :
    (process_web_data [⟨"20m", "CW", 14000, 14350, "EU"⟩] 10
        [⟨14000, "JA1ABC", "CW", "Unknown"⟩]
        (process_web_data [⟨"20m", "CW", 14000, 14350, "EU"⟩] 0
          [⟨14000, "JA1ABC", "CW 14.050", "Unknown"⟩]
          (initialAnalyzerState 0))).total_spots = 2 := by decide

/-- C1 (amended): for two web spots identical in `dx_call`, `frequency`
and `comment` (so that their post-correction dedup keys coincide), with
positive frequency, nonempty callsign, and a classification that passes
the inclusion filter, starting from a fresh pipeline state: processed
less than 600 s apart, exactly one (the first) reaches the aggregate
counters; processed 600 s or more apart, both are counted. -/
theorem C1_amended (configs : List BandConfig) (s : WebSpot) (t0 t1 t2 : ℚ)
    (hf : 0 < s.frequency) (hdx : s.dx_call ≠ "")
    (hinc : should_include_spot configs (webCorrectedFrequency s.frequency s.comment)
      (determine_mode_and_band configs (webCorrectedFrequency s.frequency s.comment)
        s.comment).1 = true) :
    (t2 - t1 < 600 →
      (process_web_data configs t2 [s]
          (process_web_data configs t1 [s] (initialAnalyzerState t0))).total_spots = 1 ∧
      (process_web_data configs t2 [s]
          (process_web_data configs t1 [s] (initialAnalyzerState t0))).frequency_counts
        (webCorrectedFrequency s.frequency s.comment)
        (determine_mode_and_band configs (webCorrectedFrequency s.frequency s.comment)
          s.comment).1 = 1 ∧
      (process_web_data configs t2 [s]
          (process_web_data configs t1 [s] (initialAnalyzerState t0))).raw_data_buffer.length
        = 1) ∧
    (600 ≤ t2 - t1 →
      (process_web_data configs t2 [s]
          (process_web_data configs t1 [s] (initialAnalyzerState t0))).total_spots = 2 ∧
      (process_web_data configs t2 [s]
          (process_web_data configs t1 [s] (initialAnalyzerState t0))).frequency_counts
        (webCorrectedFrequency s.frequency s.comment)
        (determine_mode_and_band configs (webCorrectedFrequency s.frequency s.comment)
          s.comment).1 = 2 ∧
      (process_web_data configs t2 [s]
          (process_web_data configs t1 [s] (initialAnalyzerState t0))).raw_data_buffer.length
        = 2) := by
  have hone : ∀ (t : ℚ) (st : AnalyzerState),
      process_web_data configs t [s] st = process_web_spot configs t (clean_spot_cache t st) s := by
    intro t st
    unfold process_web_data
    rw [if_neg (by simp)]
    rfl
  have hA : ∀ k, (clean_spot_cache t1 (initialAnalyzerState t0)).spot_cache k = none :=
    fun k => clean_cache_none _ _ _ rfl
  have hst1 := process_web_spot_admit configs t1 (clean_spot_cache t1 (initialAnalyzerState t0))
    s hf hdx (Or.inl (hA _)) hinc
  have hST1 : process_web_data configs t1 [s] (initialAnalyzerState t0) =
      process_web_spot configs t1 (clean_spot_cache t1 (initialAnalyzerState t0)) s :=
    hone t1 (initialAnalyzerState t0)
  rw [hST1, hst1]
  set fc := webCorrectedFrequency s.frequency s.comment with hfcdef
  set md := (determine_mode_and_band configs fc s.comment).1 with hmddef
  set A := clean_spot_cache t1 (initialAnalyzerState t0) with hAdef
  set ST1 : AnalyzerState :=
    { A with
      spot_cache := cacheInsert A.spot_cache (s.dx_call, fc) t1,
      raw_data_buffer := A.raw_data_buffer ++
        [⟨t1, fc, s.dx_call, s.spotter, md,
          (determine_mode_and_band configs fc s.comment).2.1,
          (determine_mode_and_band configs fc s.comment).2.2⟩],
      frequency_counts := bumpCount A.frequency_counts fc md,
      total_spots := A.total_spots + 1 } with hST1def
  have hST1total : ST1.total_spots = 1 := by
    show A.total_spots + 1 = 1
    rw [hAdef, clean_total]
    rfl
  have hST1counts : ST1.frequency_counts fc md = 1 := by
    show bumpCount A.frequency_counts fc md fc md = 1
    rw [bumpCount_self, hAdef, clean_counts]
    rfl
  have hST1buffer : ST1.raw_data_buffer.length = 1 := by
    show (A.raw_data_buffer ++ [_]).length = 1
    rw [List.length_append, hAdef, clean_buffer]
    rfl
  have hST1cache : ST1.spot_cache (s.dx_call, fc) = some t1 := by
    show cacheInsert A.spot_cache (s.dx_call, fc) t1 (s.dx_call, fc) = some t1
    simp [cacheInsert]
  rw [hone t2 ST1]
  constructor
  · intro hlt
    have hkeep : (clean_spot_cache t2 ST1).spot_cache (s.dx_call, fc) = some t1 :=
      clean_cache_keep t2 ST1 _ t1 hST1cache (by linarith)
    rw [process_web_spot_skip configs t2 (clean_spot_cache t2 ST1) s t1 hf hdx hkeep
      (by linarith)]
    refine ⟨?_, ?_, ?_⟩
    · rw [clean_total, hST1total]
    · rw [clean_counts, hST1counts]
    · rw [clean_buffer, hST1buffer]
  · intro hge
    have hadm : process_web_spot configs t2 (clean_spot_cache t2 ST1) s =
        { clean_spot_cache t2 ST1 with
          spot_cache := cacheInsert (clean_spot_cache t2 ST1).spot_cache (s.dx_call, fc) t2,
          raw_data_buffer := (clean_spot_cache t2 ST1).raw_data_buffer ++
            [⟨t2, fc, s.dx_call, s.spotter, md,
              (determine_mode_and_band configs fc s.comment).2.1,
              (determine_mode_and_band configs fc s.comment).2.2⟩],
          frequency_counts := bumpCount (clean_spot_cache t2 ST1).frequency_counts fc md,
          total_spots := (clean_spot_cache t2 ST1).total_spots + 1 } := by
      rcases clean_cache_cases t2 ST1 (s.dx_call, fc) t1 hST1cache with hsome | hnone
      · exact process_web_spot_admit configs t2 _ s hf hdx
          (Or.inr ⟨t1, hsome, by linarith⟩) hinc
      · exact process_web_spot_admit configs t2 _ s hf hdx (Or.inl hnone) hinc
    rw [hadm]
    refine ⟨?_, ?_, ?_⟩
    · show (clean_spot_cache t2 ST1).total_spots + 1 = 2
      rw [clean_total, hST1total]
    · show bumpCount (clean_spot_cache t2 ST1).frequency_counts fc md fc md = 2
      rw [bumpCount_self, clean_counts, hST1counts]
    · show ((clean_spot_cache t2 ST1).raw_data_buffer ++ [_]).length = 2
      rw [List.length_append, clean_buffer, hST1buffer]
      rfl

/-- C1 witness: a concrete CW spot at 14050 kHz against a 20m CW table,
first seen at t=0 and again at t=700 (more than 600 s later), is counted
twice; the within-window half is exercised at t=0/t=10 in the same run
via the first conjunct. -/
theorem C1_amended_witness :
    (process_web_data [⟨"20m", "CW", 14000, 14350, "EU"⟩] 700
        [⟨14050, "JA1ABC", "CQ CW", "Unknown"⟩]
        (process_web_data [⟨"20m", "CW", 14000, 14350, "EU"⟩] 0
          [⟨14050, "JA1ABC", "CQ CW", "Unknown"⟩]
          (initialAnalyzerState 0))).total_spots = 2 ∧
    (process_web_data [⟨"20m", "CW", 14000, 14350, "EU"⟩] 10
        [⟨14050, "JA1ABC", "CQ CW", "Unknown"⟩]
        (process_web_data [⟨"20m", "CW", 14000, 14350, "EU"⟩] 0
          [⟨14050, "JA1ABC", "CQ CW", "Unknown"⟩]
          (initialAnalyzerState 0))).total_spots = 1 :=
  ⟨((C1_amended [⟨"20m", "CW", 14000, 14350, "EU"⟩]
      ⟨14050, "JA1ABC", "CQ CW", "Unknown"⟩ 0 0 700 (by decide) (by decide)
      (by decide)).2 (by decide)).1,
    ((C1_amended [⟨"20m", "CW", 14000, 14350, "EU"⟩]
      ⟨14050, "JA1ABC", "CQ CW", "Unknown"⟩ 0 0 10 (by decide) (by decide)
      (by decide)).1 (by decide)).1⟩

/-- Python's `\s` whitespace class (also used by `str.strip()`). -/
def isSpaceChar (c : Char) : Bool :=
  c == ' ' || c == '\t' || c == '\n' || c == '\r' || c == '\x0b' || c == '\x0c'

/-- `line.strip()`: leading and trailing whitespace removed. -/
def pyStrip (s : List Char) : List Char :=
  ((s.dropWhile isSpaceChar).reverse.dropWhile isSpaceChar).reverse

/-- The character class `[\w\d/]` of the callsign groups. -/
def isCallChar (c : Char) : Bool :=
  isWordChar c || c == '/'

/-- Match a literal string at the head of `s`, returning the rest. -/
def expectLit : List Char → List Char → Option (List Char)
  | [], s => some s
  | _ :: _, [] => none
  | c :: cs, d :: ds => if c == d then expectLit cs ds else none

/-- Match a nonempty maximal run of characters satisfying `p` (a greedy
`X+` whose class is disjoint from what follows), returning run and rest. -/
def expectRun1 (p : Char → Bool) (s : List Char) : Option (List Char × List Char) :=
  if s.takeWhile p = [] then none else some (s.takeWhile p, s.dropWhile p)

/-- The frequency group `(\d+\.?\d*)`: digits, optional dot, optional
digits, converted by `float(...)`. -/
def matchNumber (s : List Char) : Option (ℚ × List Char) :=
  match expectRun1 Char.isDigit s with
  | none => none
  | some (d1, r1) =>
    match r1 with
    | '.' :: r2 => some (decimalValue d1 (r2.takeWhile Char.isDigit), r2.dropWhile Char.isDigit)
    | _ => some ((digitsToNat d1 : ℚ), r1)

/-- The optional time suffix `\s+(\d{3,4})Z$` tested against a tail of
the line: whitespace, three or four digits, a literal `Z`, end of line.
Returns the captured time group (digits and `Z`). -/
def matchTimeTail (s : List Char) : Option (List Char) :=
  match expectRun1 isSpaceChar s with
  | none => none
  | some (_, r1) =>
    let ds := r1.takeWhile Char.isDigit
    if ds.length = 3 ∨ ds.length = 4 then
      match r1.dropWhile Char.isDigit with
      | ['Z'] => some (ds ++ ['Z'])
      | _ => none
    else none

/-- The lazy tail `(.+?)(?:\s+(\d{3,4}Z))?$`: the shortest nonempty
comment after which the optional time suffix (or the end of the line)
matches; with no time suffix anywhere the whole tail is the comment. -/
def splitCommentTime (acc : List Char) : List Char → List Char × Option (List Char)
  | [] => (acc.reverse, none)
  | c :: rest =>
    match matchTimeTail rest with
    | some tm => ((c :: acc).reverse, some tm)
    | none => splitCommentTime (c :: acc) rest

/-- The primary spot pattern of `parse_dx_spot` (line 620),
`DX\s+de\s+([\w\d/]+)(?::|,)?\s+(\d+\.?\d*)\s+([\w\d/]+)\s+(.+?)(?:\s+(\d{3,4}Z))?$`,
anchored at the head of `s`; all greedy pieces have character classes
disjoint from their successors, so matching is deterministic. Returns
`(spotter, frequency, dx_call, comment, time?)`. -/
def matchPrimaryAt (s : List Char) :
    Option (List Char × ℚ × List Char × List Char × Option (List Char)) := do
  let s1 ← expectLit ['D', 'X'] s
  let (_, s2) ← expectRun1 isSpaceChar s1
  let s3 ← expectLit ['d', 'e'] s2
  let (_, s4) ← expectRun1 isSpaceChar s3
  let (spotter, s5) ← expectRun1 isCallChar s4
  let s6 := match s5 with
    | ':' :: r => r
    | ',' :: r => r
    | _ => s5
  let (_, s7) ← expectRun1 isSpaceChar s6
  let (freq, s8) ← matchNumber s7
  let (_, s9) ← expectRun1 isSpaceChar s8
  let (dxcall, s10) ← expectRun1 isCallChar s9
  let (_, s11) ← expectRun1 isSpaceChar s10
  if s11 = [] then none
  else
    let ct := splitCommentTime [] s11
    some (spotter, freq, dxcall, ct.1, ct.2)

/-- `re.search` with the primary pattern: try every start position from
the left, first full match wins. -/
def searchPrimary : List Char → Option (List Char × ℚ × List Char × List Char × Option (List Char))
  | [] => none
  | c :: rest =>
    match matchPrimaryAt (c :: rest) with
    | some r => some r
    | none => searchPrimary rest

/-- The first alternative pattern of `parse_dx_spot` (line 638),
`(\w+)\s+spots\s+([\w\d/]+)\s+(?:on|at)\s+(\d+\.?\d*)\s+(?:MHz|kHz)?\s+(.+?)(?:\s+(\d{3,4}Z))?$`,
anchored at the head of `s`.  With the unit absent, `\s+\s+` needs a
whitespace run of length at least two; if the unit matches but the
pattern cannot complete after it, the engine falls back to the
unit-absent reading.  Returns `(spotter, dx_call, frequency, comment, time?)`. -/
def matchAlt1At (s : List Char) :
    Option (List Char × List Char × ℚ × List Char × Option (List Char)) := do
  let (spotter, s1) ← expectRun1 isWordChar s
  let (_, s2) ← expectRun1 isSpaceChar s1
  let s3 ← expectLit ['s', 'p', 'o', 't', 's'] s2
  let (_, s4) ← expectRun1 isSpaceChar s3
  let (dxcall, s5) ← expectRun1 isCallChar s4
  let (_, s6) ← expectRun1 isSpaceChar s5
  let s7 ← match expectLit ['o', 'n'] s6 with
    | some r => some r
    | none => expectLit ['a', 't'] s6
  let (_, s8) ← expectRun1 isSpaceChar s7
  let (freq, s9) ← matchNumber s8
  let (sp1, s10) ← expectRun1 isSpaceChar s9
  let tail := fun (r : List Char) =>
    if r = [] then none
    else
      let ct := splitCommentTime [] r
      some (spotter, dxcall, freq, ct.1, ct.2)
  let fallback :=
    if 2 ≤ sp1.length then tail s10 else none
  match (match expectLit ['M', 'H', 'z'] s10 with
         | some r => some r
         | none => expectLit ['k', 'H', 'z'] s10) with
  | some afterUnit =>
    match expectRun1 isSpaceChar afterUnit with
    | some (_, r2) =>
      match tail r2 with
      | some res => some res
      | none => fallback
    | none => fallback
  | none => fallback

def searchAlt1 : List Char → Option (List Char × List Char × ℚ × List Char × Option (List Char))
  | [] => none
  | c :: rest =>
    match matchAlt1At (c :: rest) with
    | some r => some r
    | none => searchAlt1 rest

/-- The second alternative pattern of `parse_dx_spot` (line 639),
`Spot:\s+(\w+)\s+(\d+\.?\d*)\s+([\w\d/]+)\s+(.+)`, anchored at the head
of `s`.  Returns `(group1, frequency, dx_call, comment)`; note the code
discards group 1 and reports the spotter as "Unknown". -/
def matchAlt2At (s : List Char) : Option (List Char × ℚ × List Char × List Char) := do
  let s1 ← expectLit ['S', 'p', 'o', 't', ':'] s
  let (_, s2) ← expectRun1 isSpaceChar s1
  let (g1, s3) ← expectRun1 isWordChar s2
  let (_, s4) ← expectRun1 isSpaceChar s3
  let (freq, s5) ← matchNumber s4
  let (_, s6) ← expectRun1 isSpaceChar s5
  let (g3, s7) ← expectRun1 isCallChar s6
  let (_, s8) ← expectRun1 isSpaceChar s7
  if s8 = [] then none else some (g1, freq, g3, s8)

def searchAlt2 : List Char → Option (List Char × ℚ × List Char × List Char)
  | [] => none
  | c :: rest =>
    match matchAlt2At (c :: rest) with
    | some r => some r
    | none => searchAlt2 rest

/-- `parse_dx_spot(line)` (lines 614-667): strip the line, try the
primary `DX de` pattern, then the two alternative patterns in order;
`None` (modelled as `none`) when nothing matches.  Returns
`(spotter, dx_call, comment, time_str, frequency)`; a missing time group
defaults to `"0000Z"`, and the comment is stripped in the first two
patterns but not the third, exactly as in the code. -/
def parse_dx_spot (line : String) : Option (String × String × String × String × ℚ) :=
  let s := pyStrip line.toList
  match searchPrimary s with
  | some (spotter, freq, dxcall, comment, time) =>
    some (String.mk spotter, String.mk dxcall, String.mk (pyStrip comment),
      String.mk (time.getD "0000Z".toList), freq)
  | none =>
    match searchAlt1 s with
    | some (spotter, dxcall, freq, comment, time) =>
      some (String.mk spotter, String.mk dxcall, String.mk (pyStrip comment),
        String.mk (time.getD "0000Z".toList), freq)
    | none =>
      match searchAlt2 s with
      | some (_, freq, g3, g4) =>
        some ("Unknown", String.mk g3, String.mk g4, "0000Z", freq)
      | none => none

example :
    parse_dx_spot "DX de ON4KST: 14205.0 JA1ABC CQ SSB 1200Z" =
      some ("ON4KST", "JA1ABC", "CQ SSB", "1200Z", 14205) := by decide
example :
    parse_dx_spot "DX de W1AW: 7030.0 K2XYZ CW QRS 0300Z" =
      some ("W1AW", "K2XYZ", "CW QRS", "0300Z", 7030) := by decide
example : parse_dx_spot "random noise" = none := by decide

/-- The processing of one received line that starts with `DX de ` in the
main loop `process_cluster_data` (lines 863, 869-871 and 920-942):
`parse_dx_spot`, then — only when a positive frequency was extracted —
classification, the inclusion filter, buffer append and counter update.
No dedup cache is consulted or updated anywhere on this path. -/
def process_cluster_dx_line (configs : List BandConfig) (t : ℚ) (st : AnalyzerState)
    (line : String) : AnalyzerState :=
  match parse_dx_spot line with
  | some (spotter, dx_call, comment, _, frequency) =>
    if 0 < frequency then
      let mbr := determine_mode_and_band configs frequency comment
      if should_include_spot configs frequency mbr.1 then
        { st with
          raw_data_buffer := st.raw_data_buffer ++
            [⟨t, frequency, dx_call, spotter, mbr.1, mbr.2.1, mbr.2.2⟩],
          frequency_counts := bumpCount st.frequency_counts frequency mbr.1,
          total_spots := st.total_spots + 1 }
      else st
    else st
  | none => st

/-- C7: end-to-end scenario A.  The canonical line is parsed to spotter
ON4KST, dx call JA1ABC, frequency 14205.0, comment "CQ SSB"; against a
table with a 20m/SSB rule covering 14150-14350 it classifies as
SSB/20m, passes the inclusion filter, and processing it yields exactly
one admitted spot in the buffer and one count at (14205, SSB), with the
dedup cache untouched. -/
theorem C7_end_to_end_scenario_A :
    parse_dx_spot "DX de ON4KST: 14205.0 JA1ABC CQ SSB 1200Z" =
      some ("ON4KST", "JA1ABC", "CQ SSB", "1200Z", 14205) ∧
    determine_mode_and_band [⟨"20m", "SSB", 14150, 14350, "Global"⟩] 14205 "CQ SSB" =
      ("SSB", "20m", "Global") ∧
    should_include_spot [⟨"20m", "SSB", 14150, 14350, "Global"⟩] 14205 "SSB" = true ∧
    (process_cluster_dx_line [⟨"20m", "SSB", 14150, 14350, "Global"⟩] 0
        (initialAnalyzerState 0) "DX de ON4KST: 14205.0 JA1ABC CQ SSB 1200Z").total_spots
      = 1 ∧
    (process_cluster_dx_line [⟨"20m", "SSB", 14150, 14350, "Global"⟩] 0
        (initialAnalyzerState 0) "DX de ON4KST: 14205.0 JA1ABC CQ SSB 1200Z").raw_data_buffer
      = [⟨0, 14205, "JA1ABC", "ON4KST", "SSB", "20m", "Global"⟩] ∧
    (process_cluster_dx_line [⟨"20m", "SSB", 14150, 14350, "Global"⟩] 0
        (initialAnalyzerState 0) "DX de ON4KST: 14205.0 JA1ABC CQ SSB 1200Z").frequency_counts
      14205 "SSB" = 1 := by decide

/-- C10: the network-line ingestion path performs no deduplication.
Processing the same parsed-and-included `DX de` line twice, any times
and any starting state, increments `total_spots` and the line's
`frequency_counts` cell by two and appends two buffer rows, and the
dedup `spot_cache` is neither consulted nor updated (it is returned
unchanged whatever it contains). -/
theorem C10_cluster_path_no_dedup (configs : List BandConfig) (st : AnalyzerState)
    (t1 t2 : ℚ) (line : String) (spotter dx_call comment time_str : String) (frequency : ℚ)
    (hparse : parse_dx_spot line = some (spotter, dx_call, comment, time_str, frequency))
    (hf : 0 < frequency)
    (hinc : should_include_spot configs frequency
      (determine_mode_and_band configs frequency comment).1 = true) :
    (process_cluster_dx_line configs t2
        (process_cluster_dx_line configs t1 st line) line).total_spots
      = st.total_spots + 2 ∧
    (process_cluster_dx_line configs t2
        (process_cluster_dx_line configs t1 st line) line).frequency_counts frequency
        (determine_mode_and_band configs frequency comment).1
      = st.frequency_counts frequency
        (determine_mode_and_band configs frequency comment).1 + 2 ∧
    (process_cluster_dx_line configs t2
        (process_cluster_dx_line configs t1 st line) line).raw_data_buffer.length
      = st.raw_data_buffer.length + 2 ∧
    (process_cluster_dx_line configs t2
        (process_cluster_dx_line configs t1 st line) line).spot_cache
      = st.spot_cache := by
  have hstep : ∀ (t : ℚ) (st2 : AnalyzerState),
      process_cluster_dx_line configs t st2 line =
        { st2 with
          raw_data_buffer := st2.raw_data_buffer ++
            [⟨t, frequency, dx_call, spotter,
              (determine_mode_and_band configs frequency comment).1,
              (determine_mode_and_band configs frequency comment).2.1,
              (determine_mode_and_band configs frequency comment).2.2⟩],
          frequency_counts := bumpCount st2.frequency_counts frequency
            (determine_mode_and_band configs frequency comment).1,
          total_spots := st2.total_spots + 1 } := by
    intro t st2
    unfold process_cluster_dx_line
    rw [hparse]
    simp [hf, hinc]
  rw [hstep, hstep]
  refine ⟨rfl, ?_, ?_, rfl⟩
  · show bumpCount (bumpCount st.frequency_counts frequency _) frequency _ frequency _ = _
    rw [bumpCount_self, bumpCount_self]
  · show ((st.raw_data_buffer ++ [_]) ++ [_]).length = _
    simp

/-- C10 witness: the scenario-A line processed twice 1000 s apart against
the 20m/SSB table is counted twice. -/
theorem C10_witness :
    (process_cluster_dx_line [⟨"20m", "SSB", 14150, 14350, "Global"⟩] 1000
        (process_cluster_dx_line [⟨"20m", "SSB", 14150, 14350, "Global"⟩] 0
          (initialAnalyzerState 0) "DX de ON4KST: 14205.0 JA1ABC CQ SSB 1200Z")
        "DX de ON4KST: 14205.0 JA1ABC CQ SSB 1200Z").total_spots = 0 + 2 :=
  (C10_cluster_path_no_dedup [⟨"20m", "SSB", 14150, 14350, "Global"⟩]
    (initialAnalyzerState 0) 0 1000 "DX de ON4KST: 14205.0 JA1ABC CQ SSB 1200Z"
    "ON4KST" "JA1ABC" "CQ SSB" "1200Z" 14205 (by decide) (by decide) (by decide)).1

/-- The three HTML extractor families of the web path. -/
inductive ParserKind where
  | hamqth
  | dxwatch
  | generic
  deriving DecidableEq

/-- The ranked candidate list `urls_with_parsers` of `fetch_web_data`
(lines 1028-1036), each URL paired with its extractor. -/
def urls_with_parsers : List (String × ParserKind) :=
  [("https://www.hamqth.com/dxc.php", ParserKind.hamqth),
   ("https://www.dxwatch.com/", ParserKind.dxwatch),
   ("http://www.dxsummit.fi/", ParserKind.generic),
   ("http://www.dx-cluster.de", ParserKind.generic),
   ("https://www.dx-cluster.de", ParserKind.generic),
   ("http://dx-cluster.de", ParserKind.generic),
   ("https://dx-cluster.de", ParserKind.generic)]

/-- The environment-determined result of fetching one candidate URL and
running its paired extractor on the response: any exception during the
fetch (timeout, TLS, DNS, HTTP) is `fetchFailure`; otherwise the
extractor's spot list. -/
inductive FetchOutcome where
  | fetchFailure
  | fetched (spots : List WebSpot)
  deriving DecidableEq

/-- The `for url, parser_class in urls_with_parsers` loop of
`fetch_web_data` (lines 1047-1080) over the per-URL outcomes: a failure
or an empty extraction moves on to the next URL, the first non-empty
extraction is returned immediately, and the empty list is returned when
the candidates are exhausted.  The second component counts how many
URLs were attempted. -/
def fetch_web_data_from : List FetchOutcome → List WebSpot × ℕ
  | [] => ([], 0)
  | o :: rest =>
    match o with
    | FetchOutcome.fetchFailure =>
      let r := fetch_web_data_from rest
      (r.1, r.2 + 1)
    | FetchOutcome.fetched spots =>
      if spots = [] then
        let r := fetch_web_data_from rest
        (r.1, r.2 + 1)
      else (spots, 1)

/-- `fetch_web_data()` for one poll cycle whose network environment is
`env`: the candidates of `urls_with_parsers` are tried in ranked order. -/
def fetch_web_data (env : String × ParserKind → FetchOutcome) : List WebSpot × ℕ :=
  fetch_web_data_from (urls_with_parsers.map env)

/-- C9: in each poll cycle `fetch_web_data` walks the candidate URLs in
ranked order, treats any fetch error as non-fatal by moving to the next
URL, returns the spot list of the first URL whose paired extractor
yields a non-empty list — having attempted exactly the URLs up to and
including it, so no later URL is tried — and returns the empty list
exactly when every candidate errors or extracts nothing. -/
theorem C9_fetch_first_success :
    (∀ (outcomes : List FetchOutcome) (i : ℕ) (spots : List WebSpot),
      outcomes[i]? = some (FetchOutcome.fetched spots) → spots ≠ [] →
      (∀ j < i, outcomes[j]? = some FetchOutcome.fetchFailure ∨
        outcomes[j]? = some (FetchOutcome.fetched [])) →
      fetch_web_data_from outcomes = (spots, i + 1)) ∧
    (∀ outcomes : List FetchOutcome,
      (∀ o ∈ outcomes, o = FetchOutcome.fetchFailure ∨ o = FetchOutcome.fetched []) →
      fetch_web_data_from outcomes = ([], outcomes.length)) ∧
    (∀ outcomes : List FetchOutcome,
      (fetch_web_data_from outcomes).1 = [] →
      ∀ o ∈ outcomes, o = FetchOutcome.fetchFailure ∨ o = FetchOutcome.fetched []) := by
  refine ⟨?_, ?_, ?_⟩
  · intro outcomes
    induction outcomes with
    | nil => intro i spots h; simp at h
    | cons o rest ih =>
      intro i spots hget hne hbefore
      cases i with
      | zero =>
        simp only [List.getElem?_cons_zero, Option.some.injEq] at hget
        subst hget
        simp [fetch_web_data_from, hne]
      | succ i =>
        have hhead := hbefore 0 (Nat.succ_pos i)
        simp only [List.getElem?_cons_zero, Option.some.injEq] at hhead
        have htail : fetch_web_data_from rest = (spots, i + 1) := by
          refine ih i spots ?_ hne ?_
          · simpa using hget
          · intro j hj
            have := hbefore (j + 1) (Nat.succ_lt_succ hj)
            simpa using this
        rcases hhead with rfl | rfl
        · simp [fetch_web_data_from, htail]
        · simp [fetch_web_data_from, htail]
  · intro outcomes h
    induction outcomes with
    | nil => rfl
    | cons o rest ih =>
      have hrest := ih fun x hx => h x (List.mem_cons_of_mem o hx)
      rcases h o (List.mem_cons_self o rest) with rfl | rfl
      · simp [fetch_web_data_from, hrest]
      · simp [fetch_web_data_from, hrest]
  · intro outcomes
    induction outcomes with
    | nil => intro _ o ho; simp at ho
    | cons o rest ih =>
      intro hres o2 ho2
      cases o with
      | fetchFailure =>
        simp only [fetch_web_data_from] at hres
        rcases List.mem_cons.mp ho2 with rfl | hmem
        · exact Or.inl rfl
        · exact ih hres o2 hmem
      | fetched spots =>
        by_cases hsp : spots = []
        · subst hsp
          simp only [fetch_web_data_from, if_pos rfl] at hres
          rcases List.mem_cons.mp ho2 with rfl | hmem
          · exact Or.inr rfl
          · exact ih hres o2 hmem
        · simp only [fetch_web_data_from, if_neg hsp] at hres
          exact absurd hres hsp

/-- C9 witness: end-to-end scenario C.  The first two candidates fail,
the third extracts two spots, the fourth would extract one: the cycle
returns the third URL's two spots after exactly three attempts — the
fourth URL is never tried. -/
theorem C9_witness :
    fetch_web_data (fun up =>
      if up.1 = "http://www.dxsummit.fi/" then
        FetchOutcome.fetched [⟨14050, "JA1ABC", "CQ CW", "Unknown"⟩,
          ⟨7030, "W1AW", "CQ", "Unknown"⟩]
      else if up.1 = "http://www.dx-cluster.de" then
        FetchOutcome.fetched [⟨7030, "K2XYZ", "", "Unknown"⟩]
      else FetchOutcome.fetchFailure) =
      ([⟨14050, "JA1ABC", "CQ CW", "Unknown"⟩, ⟨7030, "W1AW", "CQ", "Unknown"⟩], 3) := by
  unfold fetch_web_data
  exact C9_fetch_first_success.1 _ 2 _ (by decide) (by decide) (by decide)

/-- The connection-related fields of `DXClusterAnalyzer` used by the
reconnect/failover logic: the consecutive-disconnect counter, the index
into the backup list, and the current primary endpoint. -/
structure ConnState where
  consecutive_disconnections : ℕ
  current_backup_index : ℕ
  cluster_host : String
  cluster_port : ℕ
  deriving DecidableEq

/-- The `backup_clusters` list (lines 399-405). -/
def backup_clusters : List (String × ℕ) :=
  [("dxc.w1nr.net", 8000), ("dxc.ve7cc.net", 23), ("dxspots.com", 8000),
   ("cluster-eu-is.com", 7300), ("arcluster.net", 7373)]

/-- The effect of `_try_connect(host, port)` (lines 516-612) on the
modelled state.  The call resolves, connects and runs the login
handshake (prompt detection, callsign send, success-keyword detection,
or the optimistic fallthrough after the 30 s window), logging
"Successfully logged in" on a keyword match; whether it returns True is
environment-determined.  It reads and writes only the socket and the log:
in particular it never touches `consecutive_disconnections`,
`current_backup_index`, `cluster_host` or `cluster_port`, so its effect
on the modelled state is the identity, on success — with its successful
login — as much as on failure. -/
def try_connect_effect (st : ConnState) : ConnState := st

/-- The backup-scanning loop of `connect_to_cluster` (lines 504-514),
over the backup endpoints paired with the environment-determined result
of `_try_connect` on each: the first success promotes that endpoint to
primary and stops. -/
def connect_backups (st : ConnState) : List ((String × ℕ) × Bool) → ConnState × Bool
  | [] => (st, false)
  | (hp, ok) :: rest =>
    if ok then
      ({ try_connect_effect st with cluster_host := hp.1, cluster_port := hp.2 }, true)
    else connect_backups st rest

/-- `connect_to_cluster()` (lines 495-514): try the current primary
endpoint, then the backup list in order; `primaryOk` and `backupOks` are
the environment-determined `_try_connect` results. -/
def connect_to_cluster (primaryOk : Bool) (backupOks : List Bool) (st : ConnState) :
    ConnState × Bool :=
  if primaryOk then (try_connect_effect st, true)
  else connect_backups st (backup_clusters.zip backupOks)

/-- The per-`_try_connect` outcomes available to one empty-read
recovery: `direct` for the targeted backup attempt of the `>= 10`
branch, `primary` and `backups` for a `connect_to_cluster()` call. -/
structure ConnectOutcomes where
  direct : Bool
  primary : Bool
  backups : List Bool
  deriving DecidableEq

/-- The empty-read disconnect branch of `process_cluster_data`
(lines 943-973): the consecutive-disconnect counter is incremented; at
10 it is reset to 0 and the next backup endpoint (cyclically) is tried
directly, falling back to `connect_to_cluster()`; below 10 the code
backs off and calls `connect_to_cluster()`. -/
def on_empty_read (o : ConnectOutcomes) (st : ConnState) : ConnState :=
  let st1 := { st with consecutive_disconnections := st.consecutive_disconnections + 1 }
  if 10 ≤ st1.consecutive_disconnections then
    let st2 := { st1 with consecutive_disconnections := 0 }
    let idx := (st2.current_backup_index + 1) % backup_clusters.length
    let st3 := { st2 with current_backup_index := idx }
    let hp := backup_clusters.getD idx ("", 0)
    if o.direct then
      { try_connect_effect st3 with cluster_host := hp.1, cluster_port := hp.2 }
    else (connect_to_cluster o.primary o.backups st3).1
  else (connect_to_cluster o.primary o.backups st1).1

theorem connect_backups_counter (st : ConnState) (l : List ((String × ℕ) × Bool)) :
    (connect_backups st l).1.consecutive_disconnections = st.consecutive_disconnections := by
  induction l with
  | nil => rfl
  | cons e rest ih =>
    rw [connect_backups]
    split
    · rfl
    · exact ih

theorem connect_to_cluster_counter (p : Bool) (bks : List Bool) (st : ConnState) :
    (connect_to_cluster p bks st).1.consecutive_disconnections =
      st.consecutive_disconnections := by
  unfold connect_to_cluster
  split
  · rfl
  · exact connect_backups_counter st _

/-- C8 counterexample: with the consecutive-disconnect counter at 3, a
`connect_to_cluster()` call that succeeds on the primary — i.e. a
successful `_try_connect` login — leaves the counter at 3, not 0; and an
empty-read disconnect followed by an immediately successful reconnect
login leaves it at 3 as well.  No successful login ever resets the
counter; the only reset is the one performed on reaching 10. -/
theorem C8_counterexample :
    (connect_to_cluster true [] ⟨3, 0, "cluster.dxwatch.com", 8000⟩).2 = true ∧
    (connect_to_cluster true []
      ⟨3, 0, "cluster.dxwatch.com", 8000⟩).1.consecutive_disconnections = 3 ∧
    (connect_to_cluster true []
      ⟨3, 0, "cluster.dxwatch.com", 8000⟩).1.consecutive_disconnections ≠ 0 ∧
    (on_empty_read ⟨true, true, [true, true, true, true, true]⟩
      ⟨2, 0, "cluster.dxwatch.com", 8000⟩).consecutive_disconnections = 3 := by decide

/-- C8 (amended): the consecutive-disconnect counter increments by one
on each empty-read disconnect while below the threshold, and is reset to
0 exactly when the incremented value reaches 10 (immediately before the
forced switch to the next backup cluster); successful logins — successes
of `connect_to_cluster`/`_try_connect` — never change it. -/
theorem C8_amended (o : ConnectOutcomes) (st : ConnState) :
    ((on_empty_read o st).consecutive_disconnections =
      if 10 ≤ st.consecutive_disconnections + 1 then 0
      else st.consecutive_disconnections + 1) ∧
    (∀ (p : Bool) (bks : List Bool) (st2 : ConnState),
      (connect_to_cluster p bks st2).1.consecutive_disconnections =
        st2.consecutive_disconnections) ∧
    (∀ st2 : ConnState, try_connect_effect st2 = st2) := by
  refine ⟨?_, connect_to_cluster_counter, fun _ => rfl⟩
  unfold on_empty_read
  by_cases h : 10 ≤ st.consecutive_disconnections + 1
  · rw [if_pos h, if_pos h]
    by_cases hd : o.direct
    · rw [if_pos hd]
      rfl
    · rw [if_neg hd]
      exact connect_to_cluster_counter _ _ _
  · rw [if_neg h, if_neg h]
    exact connect_to_cluster_counter _ _ _
